import Mathlib

/-!
Shallow embedding of CloudCompare's `libs/qCC_io/FileIOFilter.cpp`:
the I/O filter registry, the load/save orchestration, the session
counter, and the global coordinate-shift negotiator.

Modelling conventions:
* `QString` is modelled as Lean `String`; `QStringList` as `List String`.
* A `FileIOFilter::Shared` (a reference-counted filter object) is modelled
  by a `FileIOFilter` record; pointer identity (`*it == filter` on shared
  pointers) is modelled by the `fid` field.  A possibly-null shared
  pointer is `Option FileIOFilter`.
* The per-format filter implementations (`loadFile` / `saveToFile`
  virtual calls) are external collaborators: their effect is passed to
  the orchestrator as an explicit behaviour argument that may either
  return an error code (after adding children to the container and
  possibly mutating the load parameters) or throw.
* `QFileInfo` path decomposition (existence, file name, directory,
  base name) is an external filesystem collaborator, modelled as a
  record of its observed answers.
* `CCVector3d` coordinates are only ever copied and compared by this
  file (never computed with), so they are modelled as exact integer
  triples.
* C++ out-parameters become extra fields of the result records; the
  `bool*` / `CCVector3d*` slots of `LoadParameters` become `Option`s
  (`none` = null pointer).
-/

/-- The closed error taxonomy `CC_FILE_ERROR` of qCC_io. -/
inductive CC_FILE_ERROR where
  | CC_FERR_NO_ERROR
  | CC_FERR_BAD_ARGUMENT
  | CC_FERR_UNKNOWN_FILE
  | CC_FERR_WRONG_FILE_TYPE
  | CC_FERR_WRITING
  | CC_FERR_READING
  | CC_FERR_NO_SAVE
  | CC_FERR_NO_LOAD
  | CC_FERR_BAD_ENTITY_TYPE
  | CC_FERR_CANCELED_BY_USER
  | CC_FERR_NOT_ENOUGH_MEMORY
  | CC_FERR_MALFORMED_FILE
  | CC_FERR_BROKEN_DEPENDENCY_ERROR
  | CC_FERR_FILE_WAS_WRITTEN_BY_UNKNOWN_PLUGIN
  | CC_FERR_THIRD_PARTY_LIB_FAILURE
  | CC_FERR_THIRD_PARTY_LIB_EXCEPTION
  | CC_FERR_NOT_IMPLEMENTED
  | CC_FERR_CONSOLE_ERROR
deriving DecidableEq, Repr

/-- `QString::startsWith` on the underlying character lists. -/
def listStartsWith : List Char → List Char → Bool
  | _, [] => true
  | [], _ :: _ => false
  | c :: cs, p :: ps => c == p && listStartsWith cs ps

/-- Fuel-bounded worker for `listReplace`; the fuel is the length of the
subject string, which bounds the number of scanning steps. -/
def listReplaceAux : Nat → List Char → List Char → List Char → List Char
  | 0, s, _, _ => s
  | _ + 1, [], _, _ => []
  | fuel + 1, c :: cs, pat, rep =>
    if listStartsWith (c :: cs) pat then
      rep ++ listReplaceAux fuel (List.drop pat.length (c :: cs)) pat rep
    else
      c :: listReplaceAux fuel cs pat rep

/-- `QString::replace(before, after)` on character lists: replace every
(non-overlapping, left-to-right) occurrence of `pat` by `rep`. -/
def listReplace (s pat rep : List Char) : List Char :=
  if pat.isEmpty then s else listReplaceAux s.length s pat rep

/-- `QString::startsWith`. -/
def qtStartsWith (s pat : String) : Bool := listStartsWith s.data pat.data

/-- `QString::replace` (every occurrence). -/
def qtReplace (s pat rep : String) : String := ⟨listReplace s.data pat.data rep.data⟩

/-- `QString::toUpper` (character-wise upper-casing). -/
def qtToUpper (s : String) : String := ⟨s.data.map Char.toUpper⟩

/-- A registered I/O filter: its identity (`fid` models shared-pointer
identity), its import and export format-identifier lists
(`getFileFilters(true)` / `getFileFilters(false)`), its default
extension, and its `canLoadExtension` capability predicate. -/
structure FileIOFilter where
  fid : Nat
  importFilters : List String
  exportFilters : List String
  defaultExtension : String
  canLoadExtension : String → Bool

/-- The conflict test performed by `FileIOFilter::Register` against one
already-registered filter `other`: the candidate is rejected if it is
the very same object, or if one of its import file-filter strings is
already claimed by `other`. -/
def registerConflict (filter other : FileIOFilter) : Bool :=
  if other.fid == filter.fid then
    true
  else
    filter.importFilters.any (fun s => other.importFilters.contains s)

/-- `FileIOFilter::Register`: a null filter is rejected; otherwise the
registry (`s_ioFilters`, an insertion-ordered vector) is scanned, and on
any conflict the function returns with no state change; otherwise the
filter is appended. -/
def Register (filter : Option FileIOFilter) (s_ioFilters : List FileIOFilter) : List FileIOFilter :=
  match filter with
  | none => s_ioFilters
  | some filter =>
    if s_ioFilters.any (registerConflict filter) then
      s_ioFilters
    else
      s_ioFilters ++ [filter]

/-- `FileIOFilter::FindBestFilterForExtension`: upper-case the extension,
then scan the registry in insertion order and return the first filter
whose `canLoadExtension` accepts it (`none` models the null shared
pointer returned when no filter claims the extension). -/
def FindBestFilterForExtension (ext : String) (s_ioFilters : List FileIOFilter) : Option FileIOFilter :=
  s_ioFilters.find? (fun f => f.canLoadExtension (qtToUpper ext))

/-- Two filters are compatible (can legally coexist in the registry) when
they are distinct objects and their import format-identifier lists are
disjoint. -/
def FiltersCompatible (a b : FileIOFilter) : Prop :=
  a.fid ≠ b.fid ∧ ∀ s ∈ a.importFilters, s ∉ b.importFilters

/-- The registry invariant: pairwise, no two registered filters share an import
format-identifier string and no filter appears twice. -/
def RegistryInv (s_ioFilters : List FileIOFilter) : Prop :=
  s_ioFilters.Pairwise FiltersCompatible

/-- The rejection condition of `Register`: null filter, same object
already present, or an import format-identifier already claimed. -/
def RegisterRejected (filter : Option FileIOFilter) (s_ioFilters : List FileIOFilter) : Prop :=
  match filter with
  | none => True
  | some filter => ∃ other ∈ s_ioFilters,
      other.fid = filter.fid ∨ ∃ s ∈ filter.importFilters, s ∈ other.importFilters

/-- `FileIOFilter::ResetSesionCounter`: sets the process-wide session
counter `s_sessionCounter` back to zero. -/
def ResetSesionCounter : Nat := 0

/-- `FileIOFilter::IncreaseSesionCounter`: pre-increments the session
counter and returns the new value (here: new value and new state, which
coincide). -/
def IncreaseSesionCounter (s_sessionCounter : Nat) : Nat × Nat :=
  (s_sessionCounter + 1, s_sessionCounter + 1)

/-- A double-precision 3D vector (`CCVector3d`); components are only
copied and compared here, so they are modelled exactly. -/
structure CCVector3d where
  x : Int
  y : Int
  z : Int
deriving DecidableEq, Repr

/-- The fields of `FileIOFilter::LoadParameters` that this translation
unit reads or writes.  `coordinatesShiftEnabled` (`bool*`) and
`coordinatesShift` (`CCVector3d*`) are nullable slots, modelled as
`Option`s (`none` = null pointer, `some v` = pointer to value `v`);
`shiftHandlingMode` is an opaque enumeration value. -/
structure LoadParameters where
  sessionStart : Bool
  coordinatesShiftEnabled : Option Bool
  coordinatesShift : Option CCVector3d
  preserveShiftOnSave : Bool
  shiftHandlingMode : Nat
deriving DecidableEq, Repr

/-- A named child of the result container (a `ccHObject` child entity;
only its name is inspected by this translation unit). -/
structure NamedEntity where
  name : String
deriving DecidableEq, Repr

/-- The result container (`ccHObject`): a name and the immediate
children added by the filter. -/
structure ccHObject where
  name : String
  children : List NamedEntity
deriving DecidableEq, Repr

/-- The observable outcome of one `filter->loadFile(...)` invocation:
either it returns an error code, having added `children` to the
container and left the (by-reference) load parameters at `lp`, or it
throws an exception, having added `children` and left the parameters at
`lp` before the throw. -/
inductive FilterOutcome where
  | returns (code : CC_FILE_ERROR) (children : List NamedEntity) (lp : LoadParameters)
  | throws (children : List NamedEntity) (lp : LoadParameters)

/-- A filter's `loadFile` implementation, as seen by the orchestrator: a
function of the load parameters it receives. -/
structure FilterBehavior where
  run : LoadParameters → FilterOutcome

/-- The answers of the `QFileInfo` filesystem collaborator for one path:
existence, file name (with extension, without directory), absolute
directory, and extension-less base name. -/
structure QFileInfo where
  fileExists : Bool
  fileName : String
  absolutePath : String
  baseName : String
deriving DecidableEq, Repr

/-- The full result of `FileIOFilter::LoadFromFile`: the returned
container (null modelled as `none`), the `result` out-parameter, the
final state of the by-reference load parameters, and the final session
counter. -/
structure LoadResult where
  container : Option ccHObject
  result : CC_FILE_ERROR
  loadParameters : LoadParameters
  counter : Nat
deriving DecidableEq, Repr

/-- The post-filter-call tail of `FileIOFilter::LoadFromFile`: if the
container has children, rename the root to `"<filename> (<directory>)"`
and replace the leading literal `"unnamed"` token in child names by the
extension-less base name; otherwise delete the container and return
null.  (`QString::replace` replaces every occurrence, as does
`String.replace`.) -/
def postProcessLoad (fi : QFileInfo) (result : CC_FILE_ERROR)
    (children : List NamedEntity) (lp : LoadParameters) (counter : Nat) : LoadResult :=
  if children.length ≠ 0 then
    { container := some
        { name := fi.fileName ++ " (" ++ fi.absolutePath ++ ")"
          children := children.map (fun child =>
            if qtStartsWith child.name "unnamed" then
              { name := qtReplace child.name "unnamed" fi.baseName }
            else
              child) }
      result := result
      loadParameters := lp
      counter := counter }
  else
    { container := none, result := result, loadParameters := lp, counter := counter }

/-- `FileIOFilter::LoadFromFile` (explicit-filter overload): rejects a
null filter and a non-existent file with `CC_FERR_CONSOLE_ERROR` and a
null container; otherwise increments the session counter, sets
`sessionStart` to whether the new counter value is 1, invokes the
filter's `loadFile` inside the catch-all boundary (an exception empties
the container via `removeAllChildren` and yields
`CC_FERR_CONSOLE_ERROR`), then post-processes the container. -/
def LoadFromFile (fi : QFileInfo) (loadParameters : LoadParameters)
    (filter : Option FileIOFilter) (behavior : FilterBehavior)
    (s_sessionCounter : Nat) : LoadResult :=
  match filter with
  | none =>
    { container := none, result := .CC_FERR_CONSOLE_ERROR
      loadParameters := loadParameters, counter := s_sessionCounter }
  | some _ =>
    if fi.fileExists = false then
      { container := none, result := .CC_FERR_CONSOLE_ERROR
        loadParameters := loadParameters, counter := s_sessionCounter }
    else
      let (sessionCounter, s1) := IncreaseSesionCounter s_sessionCounter
      let lp1 := { loadParameters with sessionStart := sessionCounter == 1 }
      match behavior.run lp1 with
      | .returns code children lp2 =>
        postProcessLoad fi code children lp2 s1
      | .throws _children lp2 =>
        postProcessLoad fi .CC_FERR_CONSOLE_ERROR [] lp2 s1

/-- The characters after the last `'.'` of a character list, or `none`
when there is no dot. -/
def lastDotSplit : List Char → Option (List Char)
  | [] => none
  | c :: cs =>
    match lastDotSplit cs with
    | some suf => some suf
    | none => if c == '.' then some cs else none

/-- `QFileInfo::suffix()` on a plain file name: everything after the
last dot, empty when there is no dot. -/
def qtSuffix (filename : String) : String :=
  match lastDotSplit filename.data with
  | some suf => ⟨suf⟩
  | none => ""

/-- The observable outcome of one `filter->saveToFile(...)` invocation:
a returned error code, or a thrown exception. -/
inductive SaveOutcome where
  | returns (code : CC_FILE_ERROR)
  | throws

/-- `FileIOFilter::SaveToFile` (explicit-filter overload): null
entities, empty file name or null filter yield `CC_FERR_BAD_ARGUMENT`;
a file name without extension gets the filter's default extension
appended; the filter's `saveToFile` runs inside a catch-all boundary
that converts any exception into `CC_FERR_CONSOLE_ERROR`.  The save
parameters are opaque to this layer and are absorbed into the
behaviour function `saveRun`. -/
def SaveToFile (entities : Option ccHObject) (filename : String)
    (filter : Option FileIOFilter) (saveRun : String → SaveOutcome) : CC_FILE_ERROR :=
  match entities, filter with
  | some _, some f =>
    if filename = "" then
      .CC_FERR_BAD_ARGUMENT
    else
      let completeFileName :=
        if qtSuffix filename = "" then filename ++ "." ++ f.defaultExtension
        else filename
      match saveRun completeFileName with
      | .returns code => code
      | .throws => .CC_FERR_CONSOLE_ERROR
  | _, _ => .CC_FERR_BAD_ARGUMENT

/-- The outputs of one `ccGlobalShiftManager::Handle` invocation: the
return value (`decided`), the final values of the by-reference shift
vector and preserve flag, and the `applyAll` out-parameter. -/
structure HandleResult where
  decided : Bool
  pshift : CCVector3d
  preserve : Bool
  applyAll : Bool

/-- The global-shift decision collaborator
(`ccGlobalShiftManager::Handle`), abstracted as a function of the
candidate point, the shift-handling mode, the reuse-preference flag
(`useInputCoordinateShiftIfValid`), and the incoming values of the
by-reference shift vector and preserve flag.  (The constant `diagonal
= 0` argument and the null scale slot of the C++ call are omitted.) -/
def ShiftHandler : Type :=
  CCVector3d → Nat → Bool → CCVector3d → Bool → HandleResult

/-- The full result of `FileIOFilter::HandleGlobalShift`: the boolean
return value (`applied`: a shift applies to the current dataset), the
final values of the `Pshift` and `preserveCoordinateShift`
out-parameters, and the final state of the by-reference load
parameters. -/
structure GlobalShiftResult where
  applied : Bool
  pshift : CCVector3d
  preserve : Bool
  loadParameters : LoadParameters

/-- `FileIOFilter::HandleGlobalShift`: if a shift is already enabled in
the session state (non-null `coordinatesShiftEnabled` slot holding
`true` and non-null `coordinatesShift` slot), first copy the stored
shift and preserve flag into the out-parameters; then, only when
`sizeof(PointCoordinateType) < 8`, invoke the decision collaborator
with the reuse-preference flag `shiftAlreadyEnabled ||
useInputCoordinatesShiftIfPossible`; if it decides a shift and
`applyAll` is set and both parameter slots are non-null, persist the
decided shift into the load parameters. -/
def HandleGlobalShift (handle : ShiftHandler) (sizeofPointCoordinateType : Nat)
    (P : CCVector3d) (Pshift0 : CCVector3d) (preserveCoordinateShift0 : Bool)
    (loadParameters : LoadParameters)
    (useInputCoordinatesShiftIfPossible : Bool) : GlobalShiftResult :=
  let shiftAlreadyEnabled :=
    (loadParameters.coordinatesShiftEnabled == some true)
      && loadParameters.coordinatesShift.isSome
  let Pshift1 :=
    if shiftAlreadyEnabled then loadParameters.coordinatesShift.getD Pshift0 else Pshift0
  let preserve1 :=
    if shiftAlreadyEnabled then loadParameters.preserveShiftOnSave
    else preserveCoordinateShift0
  if sizeofPointCoordinateType < 8 then
    let r := handle P loadParameters.shiftHandlingMode
      (shiftAlreadyEnabled || useInputCoordinatesShiftIfPossible) Pshift1 preserve1
    if r.decided then
      let lp' :=
        if r.applyAll && loadParameters.coordinatesShiftEnabled.isSome
            && loadParameters.coordinatesShift.isSome then
          { loadParameters with
              coordinatesShiftEnabled := some true
              coordinatesShift := some r.pshift
              preserveShiftOnSave := r.preserve }
        else
          loadParameters
      { applied := true, pshift := r.pshift, preserve := r.preserve, loadParameters := lp' }
    else
      { applied := false, pshift := r.pshift, preserve := r.preserve
        loadParameters := loadParameters }
  else
    { applied := false, pshift := Pshift1, preserve := preserve1
      loadParameters := loadParameters }

/-- Modelled from the spec: the behaviour of the global-shift decision
collaborator (`ccGlobalShiftManager::Handle`, whose source is not part
of this fragment) when invoked with the reuse-preference flag set — "if
a shift is already active for the session, reuse it unconditionally
(and reuse the existing preserve-on-save flag)"; i.e. it leaves the
supplied shift vector and preserve flag unchanged. -/
def HonorsReuse (handle : ShiftHandler) : Prop :=
  ∀ (P : CCVector3d) (mode : Nat) (Pshift : CCVector3d) (preserve : Bool),
    (handle P mode true Pshift preserve).pshift = Pshift ∧
    (handle P mode true Pshift preserve).preserve = preserve

@[simp]
theorem postProcessLoad_result (fi : QFileInfo) (r : CC_FILE_ERROR)
    (ch : List NamedEntity) (lp : LoadParameters) (c : Nat) :
    (postProcessLoad fi r ch lp c).result = r := by
  unfold postProcessLoad
  split <;> rfl

@[simp]
theorem postProcessLoad_loadParameters (fi : QFileInfo) (r : CC_FILE_ERROR)
    (ch : List NamedEntity) (lp : LoadParameters) (c : Nat) :
    (postProcessLoad fi r ch lp c).loadParameters = lp := by
  unfold postProcessLoad
  split <;> rfl

@[simp]
theorem postProcessLoad_counter (fi : QFileInfo) (r : CC_FILE_ERROR)
    (ch : List NamedEntity) (lp : LoadParameters) (c : Nat) :
    (postProcessLoad fi r ch lp c).counter = c := by
  unfold postProcessLoad
  split <;> rfl

@[simp]
theorem postProcessLoad_container_nil (fi : QFileInfo) (r : CC_FILE_ERROR)
    (lp : LoadParameters) (c : Nat) :
    (postProcessLoad fi r [] lp c).container = none := by
  unfold postProcessLoad
  simp

/-- A filter `loadFile` behaviour that succeeds with a fixed code and a
fixed child list and leaves the load parameters exactly as received:
used to observe what the orchestrator passes to the filter. -/
def probeBehavior (code : CC_FILE_ERROR) (children : List NamedEntity) : FilterBehavior :=
  ⟨fun lp => .returns code children lp⟩

/-- Concrete fixtures for evaluating the embedding at specific inputs. -/
def fiScan : QFileInfo :=
  { fileExists := true, fileName := "scan.asc", absolutePath := "/data", baseName := "scan" }

def fiMissing : QFileInfo :=
  { fileExists := false, fileName := "ghost.bin", absolutePath := "/data", baseName := "ghost" }

def lpDefault : LoadParameters :=
  { sessionStart := false, coordinatesShiftEnabled := none, coordinatesShift := none
    preserveShiftOnSave := false, shiftHandlingMode := 0 }

def filterA : FileIOFilter :=
  { fid := 1, importFilters := ["BIN (*.bin)"], exportFilters := ["BIN (*.bin)"]
    defaultExtension := "bin", canLoadExtension := fun _ => false }

def filterB : FileIOFilter :=
  { fid := 2, importFilters := ["ASCII cloud (*.asc)", "BIN (*.bin)"], exportFilters := []
    defaultExtension := "asc", canLoadExtension := fun _ => true }

/-- C6: the session counter is incremented exactly once per valid load
and `sessionStart` is set to whether the new counter value is 1; hence
the first load after `ResetSesionCounter` sees `sessionStart = true`,
and a second load in the same session sees `sessionStart = false`. -/
theorem C6_sessionStart_flag (fi : QFileInfo) (lp : LoadParameters) (f : FileIOFilter)
    (code : CC_FILE_ERROR) (children : List NamedEntity) (st : Nat)
    (hex : fi.fileExists = true) :
    (LoadFromFile fi lp (some f) (probeBehavior code children) st).counter = st + 1 ∧
    (LoadFromFile fi lp (some f) (probeBehavior code children) st).loadParameters.sessionStart
      = (st + 1 == 1) ∧
    (LoadFromFile fi lp (some f) (probeBehavior code children)
        ResetSesionCounter).loadParameters.sessionStart = true ∧
    (LoadFromFile fi
        (LoadFromFile fi lp (some f) (probeBehavior code children)
          ResetSesionCounter).loadParameters
        (some f) (probeBehavior code children)
        (LoadFromFile fi lp (some f) (probeBehavior code children)
          ResetSesionCounter).counter).loadParameters.sessionStart = false := by
  simp [LoadFromFile, probeBehavior, IncreaseSesionCounter, ResetSesionCounter, hex]

/-- C6 witness: a concrete load at counter 5, and the concrete
first/second-load scenario after a reset. -/
theorem C6_sessionStart_flag_witness :
    (LoadFromFile fiScan lpDefault (some filterA)
        (probeBehavior .CC_FERR_NO_ERROR []) 5).counter = 5 + 1 ∧
    (LoadFromFile fiScan lpDefault (some filterA)
        (probeBehavior .CC_FERR_NO_ERROR []) 5).loadParameters.sessionStart = (5 + 1 == 1) ∧
    (LoadFromFile fiScan lpDefault (some filterA) (probeBehavior .CC_FERR_NO_ERROR [])
        ResetSesionCounter).loadParameters.sessionStart = true ∧
    (LoadFromFile fiScan
        (LoadFromFile fiScan lpDefault (some filterA) (probeBehavior .CC_FERR_NO_ERROR [])
          ResetSesionCounter).loadParameters
        (some filterA) (probeBehavior .CC_FERR_NO_ERROR [])
        (LoadFromFile fiScan lpDefault (some filterA) (probeBehavior .CC_FERR_NO_ERROR [])
          ResetSesionCounter).counter).loadParameters.sessionStart = false :=
  C6_sessionStart_flag fiScan lpDefault filterA .CC_FERR_NO_ERROR [] 5 rfl

/-- C7: a null filter or a non-existent file makes `LoadFromFile` return
`CC_FERR_CONSOLE_ERROR` and a null container, leaves the session
counter and the load parameters untouched, and never invokes the
filter's load operation (the outcome is independent of the filter
behaviour). -/
theorem C7_missing_file_short_circuit (fi : QFileInfo) (lp : LoadParameters)
    (filter : Option FileIOFilter) (behavior : FilterBehavior) (st : Nat)
    (h : fi.fileExists = false ∨ filter = none) :
    LoadFromFile fi lp filter behavior st =
      { container := none, result := .CC_FERR_CONSOLE_ERROR
        loadParameters := lp, counter := st } ∧
    ∀ behavior' : FilterBehavior,
      LoadFromFile fi lp filter behavior' st = LoadFromFile fi lp filter behavior st := by
  have key : ∀ b : FilterBehavior,
      LoadFromFile fi lp filter b st =
        { container := none, result := .CC_FERR_CONSOLE_ERROR
          loadParameters := lp, counter := st } := by
    intro b
    rcases h with h | h
    · cases filter with
      | none => rfl
      | some f => simp [LoadFromFile, h]
    · subst h
      rfl
  exact ⟨key behavior, fun b' => (key b').trans (key behavior).symm⟩

/-- C7 witness: loading a missing file through a concrete filter and a
concrete behaviour. -/
theorem C7_missing_file_short_circuit_witness :
    LoadFromFile fiMissing lpDefault (some filterA)
        (probeBehavior .CC_FERR_NO_ERROR [⟨"unnamed"⟩]) 7 =
      { container := none, result := .CC_FERR_CONSOLE_ERROR
        loadParameters := lpDefault, counter := 7 } ∧
    ∀ behavior' : FilterBehavior,
      LoadFromFile fiMissing lpDefault (some filterA) behavior' 7 =
        LoadFromFile fiMissing lpDefault (some filterA)
          (probeBehavior .CC_FERR_NO_ERROR [⟨"unnamed"⟩]) 7 :=
  C7_missing_file_short_circuit fiMissing lpDefault (some filterA)
    (probeBehavior .CC_FERR_NO_ERROR [⟨"unnamed"⟩]) 7 (Or.inl rfl)

/-- Unfolding lemma: a load through a non-null filter on an existing
file increments the counter, sets `sessionStart`, runs the filter
behaviour and post-processes; an exception empties the container and
yields `CC_FERR_CONSOLE_ERROR`. -/
theorem LoadFromFile_valid (fi : QFileInfo) (lp : LoadParameters) (f : FileIOFilter)
    (behavior : FilterBehavior) (st : Nat) (hex : fi.fileExists = true) :
    LoadFromFile fi lp (some f) behavior st =
      match behavior.run { lp with sessionStart := st + 1 == 1 } with
      | .returns code children lp2 => postProcessLoad fi code children lp2 (st + 1)
      | .throws _ lp2 => postProcessLoad fi .CC_FERR_CONSOLE_ERROR [] lp2 (st + 1) := by
  unfold LoadFromFile
  rw [if_neg (by simp [hex])]
  rfl

/-- Whether a `loadFile` invocation threw. -/
def FilterOutcome.isThrow : FilterOutcome → Bool
  | .returns _ _ _ => false
  | .throws _ _ => true

/-- `Forall₂` along a map: every element is related to its image. -/
theorem forall2_map {α β : Type} (l : List α) (g : α → β) (r : α → β → Prop)
    (h : ∀ a ∈ l, r a (g a)) : List.Forall₂ r l (l.map g) := by
  induction l with
  | nil => exact List.Forall₂.nil
  | cons a t ih =>
      exact List.Forall₂.cons (h a (List.mem_cons_self a t))
        (ih (fun b hb => h b (List.mem_cons_of_mem a hb)))

/-- A filter `loadFile` behaviour with a fixed outcome. -/
def constBehavior (code : CC_FILE_ERROR) (children : List NamedEntity)
    (lpAfter : LoadParameters) : FilterBehavior :=
  ⟨fun _ => .returns code children lpAfter⟩

/-- A filter `loadFile` behaviour that always throws. -/
def throwBehavior (children : List NamedEntity) (lpAfter : LoadParameters) : FilterBehavior :=
  ⟨fun _ => .throws children lpAfter⟩

/-- C2: a filter whose load or save operation throws (any exception) is
caught at the orchestrator boundary: `LoadFromFile` returns
`CC_FERR_CONSOLE_ERROR` with a null container (the partially-populated
children were removed, so the emptied container is destroyed), and
`SaveToFile` returns `CC_FERR_CONSOLE_ERROR`. -/
theorem C2_exception_containment (fi : QFileInfo) (lp : LoadParameters) (f : FileIOFilter)
    (behavior : FilterBehavior) (st : Nat) (ent : ccHObject) (fn : String)
    (sf : FileIOFilter) (saveRun : String → SaveOutcome)
    (hex : fi.fileExists = true)
    (hb : ∀ p, (behavior.run p).isThrow = true)
    (hs : ∀ s, saveRun s = .throws)
    (hfn : fn ≠ "") :
    (LoadFromFile fi lp (some f) behavior st).result = .CC_FERR_CONSOLE_ERROR ∧
    (LoadFromFile fi lp (some f) behavior st).container = none ∧
    SaveToFile (some ent) fn (some sf) saveRun = .CC_FERR_CONSOLE_ERROR := by
  have h1 := LoadFromFile_valid fi lp f behavior st hex
  cases hrun : behavior.run { lp with sessionStart := st + 1 == 1 } with
  | returns code ch lp2 =>
      have hb' := hb { lp with sessionStart := st + 1 == 1 }
      rw [hrun] at hb'
      simp [FilterOutcome.isThrow] at hb'
  | throws ch lp2 =>
      rw [hrun] at h1
      refine ⟨by rw [h1]; simp, by rw [h1]; simp, ?_⟩
      simp [SaveToFile, hs, hfn]

/-- C2 witness: a throwing load on an existing file and a throwing save
with concrete inputs. -/
theorem C2_exception_containment_witness :
    (LoadFromFile fiScan lpDefault (some filterA)
        (throwBehavior [⟨"partial"⟩] lpDefault) 0).result = .CC_FERR_CONSOLE_ERROR ∧
    (LoadFromFile fiScan lpDefault (some filterA)
        (throwBehavior [⟨"partial"⟩] lpDefault) 0).container = none ∧
    SaveToFile (some ⟨"root", []⟩) "out.bin" (some filterA)
        (fun _ => .throws) = .CC_FERR_CONSOLE_ERROR :=
  C2_exception_containment fiScan lpDefault filterA
    (throwBehavior [⟨"partial"⟩] lpDefault) 0 ⟨"root", []⟩ "out.bin" filterA
    (fun _ => .throws) rfl (fun _ => rfl) (fun _ => rfl) (by decide)

/-- C3: a successful filter invocation that leaves zero children in the
container yields the filter-supplied error code (e.g. `NO_ERROR`) but a
null container — the empty container is destroyed. -/
theorem C3_empty_result_null_container (fi : QFileInfo) (lp : LoadParameters)
    (f : FileIOFilter) (st : Nat) (code : CC_FILE_ERROR) (lpAfter : LoadParameters)
    (behavior : FilterBehavior)
    (hex : fi.fileExists = true)
    (hb : ∀ p, behavior.run p = .returns code [] lpAfter) :
    (LoadFromFile fi lp (some f) behavior st).result = code ∧
    (LoadFromFile fi lp (some f) behavior st).container = none := by
  rw [LoadFromFile_valid fi lp f behavior st hex, hb]
  simp

/-- C3 witness: a concrete empty-but-successful load. -/
theorem C3_empty_result_null_container_witness :
    (LoadFromFile fiScan lpDefault (some filterA)
        (constBehavior .CC_FERR_NO_ERROR [] lpDefault) 0).result = .CC_FERR_NO_ERROR ∧
    (LoadFromFile fiScan lpDefault (some filterA)
        (constBehavior .CC_FERR_NO_ERROR [] lpDefault) 0).container = none :=
  C3_empty_result_null_container fiScan lpDefault filterA 0 .CC_FERR_NO_ERROR lpDefault
    (constBehavior .CC_FERR_NO_ERROR [] lpDefault) rfl (fun _ => rfl)

/-- C5: a non-empty load renames the root container to
`"<filename> (<directory>)"` and, child-wise, replaces a leading
`"unnamed"` token by the extension-less base name, leaving other names
unchanged. -/
theorem C5_post_load_renaming (fi : QFileInfo) (lp : LoadParameters)
    (f : FileIOFilter) (st : Nat) (code : CC_FILE_ERROR)
    (children : List NamedEntity) (lpAfter : LoadParameters) (behavior : FilterBehavior)
    (hex : fi.fileExists = true)
    (hb : ∀ p, behavior.run p = .returns code children lpAfter)
    (hne : children ≠ []) :
    ∃ cont, (LoadFromFile fi lp (some f) behavior st).container = some cont ∧
      cont.name = fi.fileName ++ " (" ++ fi.absolutePath ++ ")" ∧
      List.Forall₂ (fun child renamed : NamedEntity =>
          renamed.name =
            if qtStartsWith child.name "unnamed" then
              qtReplace child.name "unnamed" fi.baseName
            else
              child.name)
        children cont.children := by
  refine ⟨{ name := fi.fileName ++ " (" ++ fi.absolutePath ++ ")"
            children := children.map (fun child =>
              if qtStartsWith child.name "unnamed" then
                { name := qtReplace child.name "unnamed" fi.baseName }
              else
                child) }, ?_, rfl, ?_⟩
  · rw [LoadFromFile_valid fi lp f behavior st hex, hb]
    show (postProcessLoad fi code children lpAfter (st + 1)).container = _
    unfold postProcessLoad
    rw [if_pos (by simpa using hne)]
  · refine forall2_map children _ _ ?_
    intro a _
    by_cases hcase : qtStartsWith a.name "unnamed" <;> simp [hcase]

/-- C5 witness: loading children named "unnamed" and "unnamed_cloud"
from `scan.asc`. -/
theorem C5_post_load_renaming_witness :
    ∃ cont, (LoadFromFile fiScan lpDefault (some filterA)
        (constBehavior .CC_FERR_NO_ERROR [⟨"unnamed"⟩, ⟨"unnamed_cloud"⟩] lpDefault)
        0).container = some cont ∧
      cont.name = fiScan.fileName ++ " (" ++ fiScan.absolutePath ++ ")" ∧
      List.Forall₂ (fun child renamed : NamedEntity =>
          renamed.name =
            if qtStartsWith child.name "unnamed" then
              qtReplace child.name "unnamed" fiScan.baseName
            else
              child.name)
        [⟨"unnamed"⟩, ⟨"unnamed_cloud"⟩] cont.children :=
  C5_post_load_renaming fiScan lpDefault filterA 0 .CC_FERR_NO_ERROR
    [⟨"unnamed"⟩, ⟨"unnamed_cloud"⟩] lpDefault
    (constBehavior .CC_FERR_NO_ERROR [⟨"unnamed"⟩, ⟨"unnamed_cloud"⟩] lpDefault)
    rfl (fun _ => rfl) (by decide)

/-- Characterization of a conflict-free scan step of `Register`. -/
theorem registerConflict_false (f g : FileIOFilter) :
    registerConflict f g = false ↔
      g.fid ≠ f.fid ∧ ∀ s ∈ f.importFilters, s ∉ g.importFilters := by
  unfold registerConflict
  by_cases h : g.fid = f.fid <;> simp [h]

/-- C4: `Register` rejects a null filter, an identical filter, or an import-identifier
collision with no state change, and it preserves the
registry invariant (pairwise-distinct filters with pairwise-disjoint import
identifier lists). -/
theorem C4_register_atomicity (filter : Option FileIOFilter)
    (s_ioFilters : List FileIOFilter) (hinv : RegistryInv s_ioFilters) :
    (RegisterRejected filter s_ioFilters → Register filter s_ioFilters = s_ioFilters) ∧
    RegistryInv (Register filter s_ioFilters) := by
  cases filter with
  | none => exact ⟨fun _ => rfl, hinv⟩
  | some f =>
    by_cases hc : s_ioFilters.any (registerConflict f) = true
    · refine ⟨fun _ => ?_, ?_⟩
      · simp [Register, hc]
      · simpa [Register, hc] using hinv
    · have hall : ∀ g ∈ s_ioFilters, registerConflict f g = false := by
        intro g hg
        by_contra hgc
        exact hc (List.any_eq_true.mpr ⟨g, hg, by simpa using hgc⟩)
      refine ⟨fun hrej => ?_, ?_⟩
      · exfalso
        rcases hrej with ⟨g, hg, hor⟩
        have hgood := (registerConflict_false f g).mp (hall g hg)
        rcases hor with h1 | ⟨s, hs1, hs2⟩
        · exact hgood.1 h1
        · exact (hgood.2 s hs1) hs2
      · have hreg : Register (some f) s_ioFilters = s_ioFilters ++ [f] := by
          simp [Register, hc]
        rw [hreg]
        unfold RegistryInv
        rw [List.pairwise_append]
        refine ⟨hinv, by simp, ?_⟩
        intro a ha b hb
        have hb' : b = f := by simpa using hb
        rw [hb']
        have hgood := (registerConflict_false f a).mp (hall a ha)
        exact ⟨hgood.1, fun s hsa hsf => (hgood.2 s hsf) hsa⟩

/-- C4 witness: rejecting a filter that shares the import identifier
"BIN (*.bin)" with an already-registered filter, starting from a
singleton registry. -/
theorem C4_register_atomicity_witness :
    (RegisterRejected (some filterB) [filterA] →
      Register (some filterB) [filterA] = [filterA]) ∧
    RegistryInv (Register (some filterB) [filterA]) :=
  C4_register_atomicity (some filterB) [filterA] (by simp [RegistryInv])

/-- C9: `FindBestFilterForExtension` upper-cases the extension and
returns the first registered filter (in registration order) accepting
it; if no registered filter accepts it, the result is null. -/
theorem C9_extension_resolution (s_ioFilters pre post : List FileIOFilter)
    (f : FileIOFilter) (ext : String) :
    ((∀ g ∈ s_ioFilters, g.canLoadExtension (qtToUpper ext) = false) →
      FindBestFilterForExtension ext s_ioFilters = none) ∧
    (s_ioFilters = pre ++ f :: post →
      (∀ g ∈ pre, g.canLoadExtension (qtToUpper ext) = false) →
      f.canLoadExtension (qtToUpper ext) = true →
      FindBestFilterForExtension ext s_ioFilters = some f) := by
  constructor
  · intro h
    unfold FindBestFilterForExtension
    rw [List.find?_eq_none]
    intro x hx
    simp [h x hx]
  · rintro rfl h1 h2
    unfold FindBestFilterForExtension
    induction pre with
    | nil =>
        simpa using
          List.find?_cons_of_pos (p := fun g => g.canLoadExtension (qtToUpper ext)) post h2
    | cons a l ih =>
        rw [List.cons_append, List.find?_cons_of_neg]
        · exact ih (fun g hg => h1 g (List.mem_cons_of_mem a hg))
        · simp [h1 a (List.mem_cons_self a l)]

def filterC : FileIOFilter :=
  { fid := 3, importFilters := ["PLY mesh (*.ply)"], exportFilters := []
    defaultExtension := "ply", canLoadExtension := fun _ => true }

/-- C9 witness: with `filterB` and `filterC` both claiming the
extension, the first-registered `filterB` wins; a registry whose only
filter rejects the extension resolves to null. -/
theorem C9_extension_resolution_witness :
    FindBestFilterForExtension "asc" [filterA, filterB, filterC] = some filterB ∧
    FindBestFilterForExtension "asc" [filterA] = none := by
  constructor
  · exact (C9_extension_resolution [filterA, filterB, filterC] [filterA] [filterC] filterB
      "asc").2 rfl (fun g hg => by rw [List.mem_singleton.mp hg]; rfl) rfl
  · exact (C9_extension_resolution [filterA] [] [] filterB "asc").1
      (fun g hg => by rw [List.mem_singleton.mp hg]; rfl)

/-- C1: while a shift is already active in the session state
(`coordinatesShiftEnabled` slot holding `true` and a stored shift
vector), `HandleGlobalShift` — with a decision collaborator honoring
the reuse preference as the spec describes — reports exactly the
stored shift vector and the stored preserve-on-save flag, and leaves
the session load parameters unchanged; in particular any later load of
the session receives the identical shift vector rather than a newly
computed one. -/
theorem C1_active_shift_reused (handle : ShiftHandler) (sz : Nat) (P Pshift0 : CCVector3d)
    (preserve0 : Bool) (lp : LoadParameters) (v : CCVector3d) (useInput : Bool)
    (hr : HonorsReuse handle)
    (he : lp.coordinatesShiftEnabled = some true)
    (hs : lp.coordinatesShift = some v) :
    (HandleGlobalShift handle sz P Pshift0 preserve0 lp useInput).pshift = v ∧
    (HandleGlobalShift handle sz P Pshift0 preserve0 lp useInput).preserve
      = lp.preserveShiftOnSave ∧
    (HandleGlobalShift handle sz P Pshift0 preserve0 lp useInput).loadParameters = lp := by
  obtain ⟨ss, en, sh, pr, mode⟩ := lp
  simp only at he hs
  subst he
  subst hs
  have h1 := (hr P mode v pr).1
  have h2 := (hr P mode v pr).2
  unfold HandleGlobalShift
  simp only [Option.isSome_some, Bool.and_true, beq_self_eq_true, if_true, Option.getD_some,
    Bool.true_or]
  by_cases hsz : sz < 8
  · rw [if_pos hsz]
    by_cases hdec : (handle P mode true v pr).decided = true
    · simp only [hdec, if_true, h1, h2]
      simp
    · simp only [Bool.not_eq_true] at hdec
      simp [hdec, h1, h2]
  · simp [hsz]

/-- A concrete decision collaborator: with the reuse preference set it
keeps the incoming shift and preserve flag; otherwise it proposes a
fresh shift; it always decides and always requests apply-to-all. -/
def reuseHandler : ShiftHandler := fun _P _mode reuse Pshift preserve =>
  if reuse then
    { decided := true, pshift := Pshift, preserve := preserve, applyAll := true }
  else
    { decided := true, pshift := { x := 100, y := 0, z := 0 }, preserve := false
      applyAll := true }

/-- Session load parameters with an active stored shift. -/
def lpActive : LoadParameters :=
  { sessionStart := false, coordinatesShiftEnabled := some true
    coordinatesShift := some { x := -4500000, y := -3200000, z := 0 }
    preserveShiftOnSave := true, shiftHandlingMode := 2 }

/-- Session load parameters with non-null slots but no active shift yet. -/
def lpSlots : LoadParameters :=
  { sessionStart := true, coordinatesShiftEnabled := some false
    coordinatesShift := some { x := 0, y := 0, z := 0 }
    preserveShiftOnSave := false, shiftHandlingMode := 2 }

/-- C1 witness: a first load decides the shift (100, 0, 0) with
apply-to-all and persists it; the second load, on a different candidate
point, receives the identical shift vector and leaves the session
state unchanged. -/
theorem C1_active_shift_reused_witness :
    (HandleGlobalShift reuseHandler 4 ⟨5, 6, 7⟩ ⟨0, 0, 0⟩ false
        (HandleGlobalShift reuseHandler 4 ⟨1, 2, 3⟩ ⟨0, 0, 0⟩ false lpSlots
          false).loadParameters false).pshift = ⟨100, 0, 0⟩ ∧
    (HandleGlobalShift reuseHandler 4 ⟨5, 6, 7⟩ ⟨0, 0, 0⟩ false
        (HandleGlobalShift reuseHandler 4 ⟨1, 2, 3⟩ ⟨0, 0, 0⟩ false lpSlots
          false).loadParameters false).preserve
      = (HandleGlobalShift reuseHandler 4 ⟨1, 2, 3⟩ ⟨0, 0, 0⟩ false lpSlots
          false).loadParameters.preserveShiftOnSave ∧
    (HandleGlobalShift reuseHandler 4 ⟨5, 6, 7⟩ ⟨0, 0, 0⟩ false
        (HandleGlobalShift reuseHandler 4 ⟨1, 2, 3⟩ ⟨0, 0, 0⟩ false lpSlots
          false).loadParameters false).loadParameters
      = (HandleGlobalShift reuseHandler 4 ⟨1, 2, 3⟩ ⟨0, 0, 0⟩ false lpSlots
          false).loadParameters :=
  C1_active_shift_reused reuseHandler 4 ⟨5, 6, 7⟩ ⟨0, 0, 0⟩ false
    (HandleGlobalShift reuseHandler 4 ⟨1, 2, 3⟩ ⟨0, 0, 0⟩ false lpSlots
      false).loadParameters
    ⟨100, 0, 0⟩ false (fun _ _ _ _ => ⟨rfl, rfl⟩) rfl rfl

/-- C8: when the native coordinate type already has full (8-byte)
precision, `HandleGlobalShift` returns false (no shift applied), leaves
the load parameters unchanged, and never runs the decision procedure
(its outcome is independent of the collaborator), regardless of the
candidate point and handling mode. -/
theorem C8_full_precision_no_shift (handle : ShiftHandler) (sz : Nat)
    (P Pshift0 : CCVector3d) (preserve0 : Bool) (lp : LoadParameters) (useInput : Bool)
    (hsz : ¬ sz < 8) :
    (HandleGlobalShift handle sz P Pshift0 preserve0 lp useInput).applied = false ∧
    (HandleGlobalShift handle sz P Pshift0 preserve0 lp useInput).loadParameters = lp ∧
    ∀ handle' : ShiftHandler,
      HandleGlobalShift handle' sz P Pshift0 preserve0 lp useInput
        = HandleGlobalShift handle sz P Pshift0 preserve0 lp useInput := by
  unfold HandleGlobalShift
  simp [hsz]

/-- C8 witness: an 8-byte native coordinate type with a concrete point
and state. -/
theorem C8_full_precision_no_shift_witness :
    (HandleGlobalShift reuseHandler 8 ⟨1, 1, 1⟩ ⟨0, 0, 0⟩ false lpActive true).applied
      = false ∧
    (HandleGlobalShift reuseHandler 8 ⟨1, 1, 1⟩ ⟨0, 0, 0⟩ false lpActive
        true).loadParameters = lpActive ∧
    ∀ handle' : ShiftHandler,
      HandleGlobalShift handle' 8 ⟨1, 1, 1⟩ ⟨0, 0, 0⟩ false lpActive true
        = HandleGlobalShift reuseHandler 8 ⟨1, 1, 1⟩ ⟨0, 0, 0⟩ false lpActive true :=
  C8_full_precision_no_shift reuseHandler 8 ⟨1, 1, 1⟩ ⟨0, 0, 0⟩ false lpActive true
    (by decide)

/-- C10: when the decision collaborator decides a shift with the
apply-to-all flag set but the `coordinatesShiftEnabled` or
`coordinatesShift` slot of the load parameters is null, the call still
returns true (the shift applies to the current dataset) but every load
parameter field is left unchanged, so the shift is not persisted for
the session. -/
theorem C10_persistence_requires_slots (handle : ShiftHandler) (sz : Nat)
    (P Pshift0 : CCVector3d) (preserve0 : Bool) (lp : LoadParameters) (useInput : Bool)
    (hsz : sz < 8)
    (hnull : lp.coordinatesShiftEnabled = none ∨ lp.coordinatesShift = none)
    (hdec : (handle P lp.shiftHandlingMode useInput Pshift0 preserve0).decided = true)
    (happly : (handle P lp.shiftHandlingMode useInput Pshift0 preserve0).applyAll = true) :
    (HandleGlobalShift handle sz P Pshift0 preserve0 lp useInput).applied = true ∧
    (HandleGlobalShift handle sz P Pshift0 preserve0 lp useInput).loadParameters = lp := by
  obtain ⟨ss, en, sh, pr, mode⟩ := lp
  simp only at hdec happly
  unfold HandleGlobalShift
  rcases hnull with h | h
  · simp only at h
    subst h
    simp [hsz, hdec]
  · simp only at h
    subst h
    simp [hsz, hdec]

/-- A decision collaborator that always decides a fixed shift and
requests apply-to-all. -/
def alwaysApplyHandler : ShiftHandler := fun _ _ _ _ _ =>
  { decided := true, pshift := { x := -100, y := 0, z := 0 }, preserve := true
    applyAll := true }

/-- Load parameters whose enabled slot is a null pointer. -/
def lpNullSlot : LoadParameters :=
  { sessionStart := false, coordinatesShiftEnabled := none
    coordinatesShift := some { x := 7, y := 8, z := 9 }
    preserveShiftOnSave := false, shiftHandlingMode := 1 }

/-- C10 witness: apply-to-all decision with a null enabled slot. -/
theorem C10_persistence_requires_slots_witness :
    (HandleGlobalShift alwaysApplyHandler 4 ⟨1, 2, 3⟩ ⟨0, 0, 0⟩ false lpNullSlot
        true).applied = true ∧
    (HandleGlobalShift alwaysApplyHandler 4 ⟨1, 2, 3⟩ ⟨0, 0, 0⟩ false lpNullSlot
        true).loadParameters = lpNullSlot :=
  C10_persistence_requires_slots alwaysApplyHandler 4 ⟨1, 2, 3⟩ ⟨0, 0, 0⟩ false lpNullSlot
    true (by decide) (Or.inl rfl) rfl rfl
